import Mathlib

/-!
Shallow embedding of the pyNSRDB request-assembly, endpoint-selection and
deferred-result-polling logic (src/pyNSRDB/requests.py, credentials.py,
response.py), with theorems checking the natural-language specification
against it.

Modelling conventions:
* Python exceptions are modelled by `Except PyErr`.
* Python dictionaries are association lists `List (String × v)` with the
  insertion-order update semantics of CPython dicts (`dictUpdate`).
* Python `str.split(",")` is modelled by `pySplit` (an explicit structural
  recursion over the character list, with the CPython semantics that the
  result always has at least one element).
* Geometry coordinates are modelled as integers: the code performs no
  arithmetic on them, it only formats them into WKT text, and none of the
  checked claims depends on decimal float formatting.
* External collaborators (the HTTP library, pandas CSV parsing, the archive
  download in `_process_download_url`) enter as explicit function
  parameters; the JSON values the code inspects are modelled by the
  inductive `JVal`.
-/

/-- Python exceptions that the embedded code paths can raise. -/
inductive PyErr where
  | valueError
  | fileNotFoundError
  | unboundLocalError
  | keyError
  | typeError
  | attributeError
  | indexError
  | jsonDecodeError
  deriving DecidableEq, Repr

/-- A Python value as it occurs in the query-parameter dictionaries of
`_assemble_query_params`: a string, a boolean, or an integer. -/
inductive PyVal where
  | str (s : String)
  | bool (b : Bool)
  | int (n : Int)
  deriving DecidableEq, Repr

/-- True exactly for `PyVal.bool` values. -/
def PyVal.isBool : PyVal → Bool
  | .bool _ => true
  | _ => false

/-- CPython dict assignment `d[k] = v`: replaces the value in place when the
key is present, otherwise appends the new binding. -/
def dictUpdate (d : List (String × PyVal)) (k : String) (v : PyVal) :
    List (String × PyVal) :=
  if d.any (fun kv => kv.1 == k) then
    d.map (fun kv => if kv.1 == k then (k, v) else kv)
  else
    d ++ [(k, v)]

/-- CPython `d.update(u)`: fold `dictUpdate` over the bindings of `u`. -/
def dictUpdateAll (d u : List (String × PyVal)) : List (String × PyVal) :=
  u.foldl (fun acc kv => dictUpdate acc kv.1 kv.2) d

/-- Split a character list at every occurrence of `sep`, CPython
`str.split(sep)` semantics: the result always has at least one group and
empty groups are kept. -/
def splitCharList (sep : Char) : List Char → List (List Char)
  | [] => [[]]
  | c :: rest =>
    let r := splitCharList sep rest
    if c = sep then [] :: r
    else
      match r with
      | [] => [[c]]
      | g :: gs => (c :: g) :: gs

/-- Python `s.split(",")`. -/
def pySplit (s : String) : List String :=
  (splitCharList ',' s.toList).map List.asString

/-- Python `s.lower()`, written over the character list so that it reduces
definitionally. -/
def pyLower (s : String) : String :=
  (s.toList.map Char.toLower).asString

/-- Python `s.strip()`: drop whitespace from both ends. -/
def pyStrip (s : String) : String :=
  (((s.toList.dropWhile Char.isWhitespace).reverse.dropWhile
    Char.isWhitespace).reverse).asString

/-- Python substring test `sub in s`. -/
def strContainsSub (s sub : String) : Bool :=
  s.toList.tails.any (fun t => sub.toList.isPrefixOf t)

theorem splitCharList_ne_nil (sep : Char) (cs : List Char) :
    splitCharList sep cs ≠ [] := by
  cases cs with
  | nil => simp [splitCharList]
  | cons c rest =>
    simp only [splitCharList]
    split
    · simp
    · cases splitCharList sep rest <;> simp

theorem pySplit_length_pos (s : String) : 0 < (pySplit s).length := by
  have h := splitCharList_ne_nil ',' s.toList
  simp only [pySplit, List.length_map]
  exact List.length_pos.mpr h

/-- Embedding of `_parse_base_url` (src/pyNSRDB/requests.py): selects the
download URL suffix from the WKT string and the normalized names string. -/
def parse_base_url (url wkt names : String) : String :=
  if wkt.take 5 = "POINT" ∧ (pySplit names).length = 0 then
    url ++ ".csv"
  else
    url ++ ".json"

/-- An element of a user-supplied names or attributes sequence: Python str
or int. -/
inductive NameVal where
  | str (s : String)
  | int (n : Int)
  deriving DecidableEq, Repr

/-- The `names` argument of `_parse_inputs`: a string, an int, or a list of
str/int values. -/
inductive NamesInput where
  | str (s : String)
  | int (n : Int)
  | list (xs : List NameVal)
  deriving DecidableEq, Repr

/-- First half of `_parse_inputs`: coerce an int to its decimal string, split
a comma-containing string and strip each piece, wrap a bare string, and use a
sequence as-is. -/
def namesToList (names : NamesInput) : List NameVal :=
  match names with
  | .int n => [.str (toString n)]
  | .str s =>
    if s.toList.contains ',' then
      (pySplit s).map (fun t => .str (pyStrip t))
    else
      [.str s]
  | .list xs => xs

/-- Python `",".join(xs)`: succeeds only when every element is a string,
otherwise raises a TypeError. -/
def pyJoinComma (xs : List NameVal) : Except PyErr String :=
  let strs := xs.filterMap (fun v => match v with | .str s => some s | .int _ => none)
  if strs.length = xs.length then
    .ok (String.intercalate "," strs)
  else
    .error .typeError

/-- The subexpression `set(names).intersection(set(allowed_names))` of
`_parse_inputs`: the distinct input elements that also occur in the allow
list. CPython iterates a set in an unspecified order; the model enumerates
the intersection in first-occurrence order, which fixes one of the admitted
orders. Ints never equal strings in Python, so int elements are dropped. -/
def set_intersection (ns : List NameVal) (allowed : List String) : List NameVal :=
  ns.dedup.filter (fun v => match v with | .str s => allowed.contains s | .int _ => false)

/-- Embedding of `_parse_inputs` (src/pyNSRDB/requests.py): normalizes user
provided names/attributes into a comma-delimited string, intersecting with
the allow list when one is given. The `one_allowed` flag is accepted and
ignored, as in the source. -/
def parse_inputs (names : NamesInput) (allowed_names : Option (List String))
    (one_allowed : Bool := false) : Except PyErr String :=
  let ns := namesToList names
  match allowed_names with
  | none => pyJoinComma ns
  | some allowed => pyJoinComma (set_intersection ns allowed)

/-- Embedding of the dict comprehension
`{k.lower(): v for k, v in dotenv_values(config_file).items()}` in
`_get_user_credentials` (src/pyNSRDB/credentials.py). -/
def load_user_config (config_file_vals : List (String × String)) :
    List (String × PyVal) :=
  config_file_vals.foldl (fun d kv => dictUpdate d (pyLower kv.1) (.str kv.2)) []

/-- The `items` zip of `_get_user_credentials`: credential keys paired with
the explicit caller arguments, in source order. -/
def credItems (api_key full_name affiliation email reason : Option String)
    (mailing_list : Option Bool) : List (String × Option PyVal) :=
  [("api_key", api_key.map .str),
   ("full_name", full_name.map .str),
   ("email", email.map .str),
   ("affiliation", affiliation.map .str),
   ("reason", reason.map .str),
   ("mailing_list", mailing_list.map .bool)]

/-- The final merge of `_get_user_credentials`:
`user_config.update({k: v for k, v in items if v is not None})`. -/
def updateNonNull (d : List (String × PyVal))
    (items : List (String × Option PyVal)) : List (String × PyVal) :=
  items.foldl
    (fun acc kv => match kv.2 with
      | some v => dictUpdate acc kv.1 v
      | none => acc)
    d

/-- Embedding of `_get_user_credentials` (src/pyNSRDB/credentials.py). The
file system enters through `config_file_exists` (does `~/.pyNSRDB` exist)
and `config_file_vals` (what `dotenv_values` returns on it). When the file
exists but its lower-cased keys lack `api_key`, the source raises ValueError
(the ConfigurationError of the spec). When the file does not exist and no
explicit api_key is given, it raises FileNotFoundError (the
MissingCredentialsError of the spec). When the file does not exist and an
explicit api_key is given, the source executes `config_file = {}` — it
assigns the wrong variable, so the local `user_config` is still unbound when
`user_config.update(...)` runs, and Python raises UnboundLocalError. -/
def get_user_credentials (config_file_exists : Bool)
    (config_file_vals : List (String × String))
    (api_key : Option String := none) (full_name : Option String := none)
    (affiliation : Option String := none) (email : Option String := none)
    (reason : Option String := none) (mailing_list : Option Bool := none) :
    Except PyErr (List (String × PyVal)) :=
  if config_file_exists then
    let user_config := load_user_config config_file_vals
    if (user_config.lookup "api_key").isNone then
      .error .valueError
    else
      .ok (updateNonNull user_config
        (credItems api_key full_name affiliation email reason mailing_list))
  else if api_key.isNone then
    .error .fileNotFoundError
  else
    .error .unboundLocalError

/-- The `location` argument of `_parse_query_location`: a Python tuple or
list of coordinates, a shapely Point / MultiPoint / Polygon, or any other
value — represented here by the string case, which is what a WKT result fed
back in would be. Coordinates are integers in the model: the code only
formats them, never computes with them. -/
inductive PyLoc where
  | tuple (xs : List Int)
  | list (xs : List Int)
  | point (x y : Int)
  | multipoint (pts : List (Int × Int))
  | polygon (shell : List (Int × Int))
  | strVal (s : String)
  deriving DecidableEq, Repr

/-- WKT rendering of one coordinate pair. -/
def coordStr (p : Int × Int) : String :=
  toString p.1 ++ " " ++ toString p.2

/-- The shapely `.wkt` property, defined exactly on the three geometry
constructors. -/
def wktOf : PyLoc → Option String
  | .point x y => some ("POINT (" ++ toString x ++ " " ++ toString y ++ ")")
  | .multipoint pts =>
    some ("MULTIPOINT (" ++ String.intercalate ", " (pts.map coordStr) ++ ")")
  | .polygon shell =>
    some ("POLYGON ((" ++ String.intercalate ", " (shell.map coordStr) ++ "))")
  | _ => none

/-- Embedding of `_parse_query_location` (src/pyNSRDB/requests.py): a tuple
or list is first turned into `Point(location[0], location[1])` (raising
IndexError when it has fewer than two elements), then any Point, MultiPoint
or Polygon is rendered to WKT; everything else raises
ValueError("Location is not in correct format."). -/
def parse_query_location (location : PyLoc) : Except PyErr String := do
  let location ← match location with
    | .tuple xs | .list xs =>
      match xs with
      | x0 :: x1 :: _ => pure (PyLoc.point x0 x1)
      | _ => Except.error PyErr.indexError
    | l => pure l
  match wktOf location with
  | some w => .ok w
  | none => .error .valueError

/-- Two successive applications of `_parse_query_location`, the second one
receiving the WKT string produced by the first. -/
def parse_query_location_twice (location : PyLoc) : Except PyErr String :=
  (parse_query_location location).bind (fun w => parse_query_location (.strVal w))

/-- The nested `process_bool` helper of `_assemble_query_params`
(src/pyNSRDB/requests.py): booleans become the wire strings, every other
value passes through unchanged. -/
def process_bool (input : PyVal) : PyVal :=
  match input with
  | .bool b => .str (if b then "true" else "false")
  | v => v

/-- Embedding of `_assemble_query_params` (src/pyNSRDB/requests.py). The
credential file enters through the first two arguments as in
`get_user_credentials`; `kwargs` carries the endpoint extras such as
`leap_day` and `interval`. The insertion order of the dict operations
mirrors the source: optional `attributes`, then `wkt`, then the credential
dict, then `names`, then `kwargs`, and finally `process_bool` mapped over
all values. As in the source, the `utc` argument is accepted but never
written into the dictionary. -/
def assemble_query_params_raw (config_file_exists : Bool)
    (config_file_vals : List (String × String))
    (location : PyLoc)
    (attributes : Option NamesInput) (allowed_attributes : Option (List String))
    (one_allowed_attributes : Bool)
    (names : NamesInput) (allowed_names : Option (List String))
    (one_allowed_names : Bool)
    (utc : Bool)
    (api_key full_name affiliation email reason : Option String)
    (mailing_list : Option Bool)
    (kwargs : List (String × PyVal)) :
    Except PyErr (List (String × PyVal)) := do
  let user_credientials ← get_user_credentials config_file_exists
    config_file_vals api_key full_name affiliation email reason mailing_list
  let query_params : List (String × PyVal) := []
  let query_params ← match attributes with
    | some a => do
      let s ← parse_inputs a allowed_attributes one_allowed_attributes
      pure (dictUpdate query_params "attributes" (.str s))
    | none => pure query_params
  let wkt ← parse_query_location location
  let query_params := dictUpdate query_params "wkt" (.str wkt)
  let query_params := dictUpdateAll query_params user_credientials
  let namesStr ← parse_inputs names allowed_names one_allowed_names
  let query_params := dictUpdate query_params "names" (.str namesStr)
  pure (dictUpdateAll query_params kwargs)

/-- The final line of `_assemble_query_params`,
`query_params = {k: process_bool(v) for k, v in query_params.items()}`,
applied to the dictionary assembled so far (it runs only when no earlier
statement raised). -/
def assemble_query_params (config_file_exists : Bool)
    (config_file_vals : List (String × String))
    (location : PyLoc)
    (attributes : Option NamesInput) (allowed_attributes : Option (List String))
    (one_allowed_attributes : Bool)
    (names : NamesInput) (allowed_names : Option (List String))
    (one_allowed_names : Bool)
    (utc : Bool)
    (api_key full_name affiliation email reason : Option String)
    (mailing_list : Option Bool)
    (kwargs : List (String × PyVal)) :
    Except PyErr (List (String × PyVal)) :=
  (assemble_query_params_raw config_file_exists config_file_vals location
    attributes allowed_attributes one_allowed_attributes names allowed_names
    one_allowed_names utc api_key full_name affiliation email reason
    mailing_list kwargs).map
    (fun query_params => query_params.map (fun kv => (kv.1, process_bool kv.2)))

/-- A parsed JSON value, as produced by `json.loads`. -/
inductive JVal where
  | null
  | jbool (b : Bool)
  | num (n : Int)
  | jstr (s : String)
  | arr (xs : List JVal)
  | obj (fields : List (String × JVal))

/-- Python subscription `j[k]` on a parsed JSON value: KeyError when the key
is absent, TypeError when the value is not an object. -/
def jSubscript (j : JVal) (k : String) : Except PyErr JVal :=
  match j with
  | .obj fields =>
    match fields.lookup k with
    | some v => .ok v
    | none => .error .keyError
  | _ => .error .typeError

/-- Python `j.get(k, False)` on a parsed JSON value: the default `False` when
the key is absent, AttributeError when the value is not an object. -/
def jGetDefaultFalse (j : JVal) (k : String) : Except PyErr JVal :=
  match j with
  | .obj fields =>
    .ok (match fields.lookup k with
      | some v => v
      | none => .jbool false)
  | _ => .error .attributeError

/-- Python truthiness of a parsed JSON value. -/
def jTruthy : JVal → Bool
  | .null => false
  | .jbool b => b
  | .num n => n != 0
  | .jstr s => !(s == "")
  | .arr xs => !xs.isEmpty
  | .obj fs => !fs.isEmpty

/-- An HTTP response as `_process_response` inspects it: the status code, the
body text, and what `json.loads` yields on that body (`none` when the body is
not valid JSON, in which case `json.loads` raises). -/
structure HttpResponse where
  status_code : Nat
  text : String
  jsonParse : Option JVal

/-- The value of the `response_data` variable in `_process_response`: either
the parsed submission JSON or an assembled table (abstract type `Table`,
produced by the external pandas/zipfile collaborators). -/
inductive RespData (Table : Type) where
  | jsonData (j : JVal)
  | tableData (t : Table)

/-- What `_process_response` hands back to its caller: the current
`response_data` (dict or table), the result of `_save_to_output_dir`
(an external file write, abstracted), or — on a non-200 status — the parsed
error JSON or the raw body text. -/
inductive ProcResult (Table : Type) where
  | data (d : RespData Table)
  | saved
  | errJson (j : JVal)
  | errText (s : String)

/-- Fuel-indexed unfolding of the while loop of `_process_response`
(src/pyNSRDB/response.py, lines 38-47):

    while elapsed_time < timeout:
        try:
            response_data = _process_download_url(download_url)
        except Exception as e:
            time.sleep(5)
            elapsed_time = time.perf_counter() - start

`fetch n` abstracts the n-th call of `_process_download_url(download_url)`:
`some t` when the download and unpack succeed with table `t`, `none` when
any exception is raised. `failDelay n` is the wall-clock time of the n-th
failing iteration beyond the fixed 5-second sleep, so a failing iteration
advances the measured elapsed time by at least 5. As in the source,
`elapsed_time` is re-measured only in the except branch, and a successful
fetch neither breaks out of the loop nor updates it. The result is `none`
when the loop is still running after `fuel` iterations, `some` the final
`response_data` when the loop has exited. -/
def pollLoop {Table : Type} (fetch : Nat → Option Table) (failDelay : Nat → Nat)
    (timeout : Nat) : Nat → Nat → RespData Table → Nat → Option (RespData Table)
  | _, _, _, 0 => none
  | attempt, elapsed, current, fuel + 1 =>
    if elapsed < timeout then
      match fetch attempt with
      | some t =>
        pollLoop fetch failDelay timeout (attempt + 1) elapsed (.tableData t) fuel
      | none =>
        pollLoop fetch failDelay timeout (attempt + 1)
          (elapsed + 5 + failDelay attempt) current fuel
    else
      some current

/-- The final `if output_dir is not None` dispatch of `_process_response`:
saving to disk is an external effect, recorded as `ProcResult.saved`. -/
def finishResponse {Table : Type} (rd : RespData Table)
    (output_dir : Option Unit) : Except PyErr (ProcResult Table) :=
  match output_dir with
  | some _ => .ok .saved
  | none => .ok (.data rd)

/-- Embedding of `_process_response` (src/pyNSRDB/response.py). External
collaborators enter as parameters: `fetch`/`failDelay` for the poll loop as
in `pollLoop`, `create_df` for the pandas CSV assembly of the synchronous
branch, and `output_dir` for the optional save. The result is `none` when
the poll loop is still running after `fuel` iterations, otherwise `some` of
the returned value or of the exception the code raises. -/
def process_response {Table : Type} (resp : HttpResponse) (base_url : String)
    (timeout : Nat) (fetch : Nat → Option Table) (failDelay : Nat → Nat)
    (create_df : String → Table) (output_dir : Option Unit) (fuel : Nat) :
    Option (Except PyErr (ProcResult Table)) :=
  if resp.status_code = 200 then
    if strContainsSub base_url "json" then
      match resp.jsonParse with
      | none => some (.error .jsonDecodeError)
      | some response_data =>
        match jSubscript response_data "outputs" with
        | .error e => some (.error e)
        | .ok outputs =>
          match jGetDefaultFalse outputs "downloadUrl" with
          | .error e => some (.error e)
          | .ok dl =>
            if jTruthy dl then
              match pollLoop fetch failDelay timeout 0 0
                  (.jsonData response_data) fuel with
              | none => none
              | some rd => some (finishResponse rd output_dir)
            else
              some (finishResponse (.jsonData response_data) output_dir)
    else
      some (finishResponse (.tableData (create_df resp.text)) output_dir)
  else
    match resp.jsonParse with
    | some j => some (.ok (.errJson j))
    | none => some (.ok (.errText resp.text))

/-- Checks whether a result of `assemble_query_params` is a mapping whose
values are all strings (an exception counts as vacuously true: no mapping
was produced). -/
def allValuesStr (r : Except PyErr (List (String × PyVal))) : Bool :=
  match r with
  | .ok l => l.all (fun kv => match kv.2 with | .str _ => true | _ => false)
  | .error _ => true

/-- C1. The claim says `_parse_base_url` returns the `.csv` suffix when the
WKT starts with POINT and the names string has exactly one comma-separated
entry. In the source the guard is `len(names.split(",")) == 0`, and
`str.split` always returns at least one element, so the guard is
unsatisfiable and the function returns the `.json` suffix on every input —
in particular on the single-point single-name input the spec (and the
comment in the source itself) routes to CSV. -/
theorem parse_base_url_always_json :
    (∀ url wkt names, parse_base_url url wkt names = url ++ ".json") ∧
    parse_base_url "https://developer.nrel.gov/api/nsrdb/v2/solar/psm3-tmy-download"
      "POINT (-93.1 45.1)" "tmy"
      = "https://developer.nrel.gov/api/nsrdb/v2/solar/psm3-tmy-download.json" := by
  have h : ∀ url wkt names, parse_base_url url wkt names = url ++ ".json" := by
    intro url wkt names
    unfold parse_base_url
    rw [if_neg]
    rintro ⟨-, hlen⟩
    have := pySplit_length_pos names
    omega
  exact ⟨h, h _ _ _⟩

/-- C2. With no credential file and an explicit api_key, the source runs
`config_file = {}` instead of binding `user_config`, so the following
`user_config.update(...)` raises UnboundLocalError; the resolver never
returns the `{api_key: "X"}` mapping the spec describes. -/
theorem get_user_credentials_unbound_local :
    get_user_credentials false [] (some "X") none none none none none
      = .error .unboundLocalError := rfl

/-- C5. When the credential file exists and its (lower-cased) keys lack
`api_key`, the resolver raises ValueError (the ConfigurationError of the
spec) no matter which explicit arguments are supplied: the check runs before
the merge with the explicit arguments. -/
theorem get_user_credentials_config_missing_api_key
    (config_file_vals : List (String × String))
    (api_key full_name affiliation email reason : Option String)
    (mailing_list : Option Bool)
    (h : (load_user_config config_file_vals).lookup "api_key" = none) :
    get_user_credentials true config_file_vals api_key full_name affiliation
      email reason mailing_list = .error .valueError := by
  unfold get_user_credentials
  simp [h]

/-- Witness for C5: a file holding only FULL_NAME, with an explicit api_key
supplied, still yields the ValueError. -/
theorem get_user_credentials_config_missing_api_key_instance :
    (load_user_config [("FULL_NAME", "Bob")]).lookup "api_key" = none ∧
    get_user_credentials true [("FULL_NAME", "Bob")] (some "X") (some "B")
      none none none none = .error .valueError :=
  ⟨by decide, get_user_credentials_config_missing_api_key _ _ _ _ _ _ _ (by decide)⟩

/-- C10. A two-element Python list of numbers is accepted by
`_parse_query_location` just like a tuple: it is converted to the
corresponding WKT POINT string and nothing is raised. -/
theorem parse_query_location_two_element_list (a b : Int) :
    parse_query_location (.list [a, b])
      = .ok ("POINT (" ++ toString a ++ " " ++ toString b ++ ")") := rfl

/-- C6. With a non-null allow list, `_parse_inputs` joins exactly the set
intersection of the normalized input elements with the allow list: the
output list contains only allow-listed strings, and every string present in
both the input and the allow list occurs exactly once. -/
theorem parse_inputs_allowlist_intersection
    (names : NamesInput) (allowed : List String) (one_allowed : Bool) :
    parse_inputs names (some allowed) one_allowed
      = pyJoinComma (set_intersection (namesToList names) allowed) ∧
    (∀ v ∈ set_intersection (namesToList names) allowed,
      ∃ s, v = .str s ∧ s ∈ allowed) ∧
    (∀ s, NameVal.str s ∈ namesToList names → s ∈ allowed →
      (set_intersection (namesToList names) allowed).count (.str s) = 1) := by
  refine ⟨rfl, ?_, ?_⟩
  · intro v hv
    rw [set_intersection, List.mem_filter] at hv
    obtain ⟨_, hp⟩ := hv
    cases v with
    | str s => exact ⟨s, rfl, by simpa using hp⟩
    | int n => simp at hp
  · intro s hs ha
    apply List.count_eq_one_of_mem
    · exact (List.nodup_dedup _).filter _
    · rw [set_intersection, List.mem_filter]
      exact ⟨List.mem_dedup.mpr hs, by simpa⟩

/-- Witness for C6 at a concrete comma-delimited input with a duplicate:
"ghi" is in the input and the allow list and occurs exactly once in the
intersection. -/
theorem parse_inputs_allowlist_instance :
    NameVal.str "ghi" ∈ namesToList (.str "ghi, dhi,ghi") ∧
    "ghi" ∈ ["ghi", "dhi"] ∧
    (set_intersection (namesToList (.str "ghi, dhi,ghi"))
      ["ghi", "dhi"]).count (.str "ghi") = 1 :=
  ⟨by decide, by decide,
    (parse_inputs_allowlist_intersection (.str "ghi, dhi,ghi") ["ghi", "dhi"]
      false).2.2 "ghi" (by decide) (by decide)⟩

/-- Counterexample for C9. Applying `_parse_query_location` twice to a Point
is not the same as applying it once: the first application yields the WKT
string, and the second application rejects that string with
ValueError("Location is not in correct format."). -/
theorem parse_query_location_not_idempotent :
    parse_query_location_twice (.point 1 2) ≠ parse_query_location (.point 1 2) ∧
    parse_query_location_twice (.point 1 2) = .error .valueError ∧
    parse_query_location (.point 1 2) = .ok "POINT (1 2)" := by
  refine ⟨fun h => ?_, rfl, rfl⟩
  rw [show parse_query_location_twice (.point 1 2)
        = Except.error PyErr.valueError from rfl,
      show parse_query_location (.point 1 2)
        = Except.ok "POINT (1 2)" from rfl] at h
  exact Except.noConfusion h

/-- C9 amended. A single application of `_parse_query_location` to a Point,
MultiPoint or Polygon deterministically yields its WKT string, but the
conversion is not idempotent: a second application, fed that WKT string,
raises ValueError, because a string is not an accepted location input. -/
theorem parse_query_location_geometry_once_then_raises
    (l : PyLoc) (w : String) (h : wktOf l = some w) :
    parse_query_location l = .ok w ∧
    parse_query_location_twice l = .error .valueError := by
  have h1 : parse_query_location l = .ok w := by
    cases l with
    | tuple xs => simp [wktOf] at h
    | list xs => simp [wktOf] at h
    | strVal s => simp [wktOf] at h
    | point x y =>
      simp only [parse_query_location, pure, Except.pure, Except.bind, bind, h]
    | multipoint pts =>
      simp only [parse_query_location, pure, Except.pure, Except.bind, bind, h]
    | polygon shell =>
      simp only [parse_query_location, pure, Except.pure, Except.bind, bind, h]
  refine ⟨h1, ?_⟩
  rw [parse_query_location_twice, h1]
  rfl

/-- Witness for C9 amended at a concrete MultiPoint. -/
theorem parse_query_location_geometry_instance :
    wktOf (.multipoint [(1, 2), (3, 4)]) = some "MULTIPOINT (1 2, 3 4)" ∧
    parse_query_location (.multipoint [(1, 2), (3, 4)])
      = .ok "MULTIPOINT (1 2, 3 4)" ∧
    parse_query_location_twice (.multipoint [(1, 2), (3, 4)])
      = .error .valueError :=
  ⟨rfl,
    (parse_query_location_geometry_once_then_raises
      (.multipoint [(1, 2), (3, 4)]) "MULTIPOINT (1 2, 3 4)" rfl).1,
    (parse_query_location_geometry_once_then_raises
      (.multipoint [(1, 2), (3, 4)]) "MULTIPOINT (1 2, 3 4)" rfl).2⟩

/-- Counterexample for C7. On a run that reaches the server
(a PSM-style call with `leap_day` and `interval` kwargs), the assembled
mapping still holds the integer 60 under `interval`: not every value is a
string. The booleans were converted, the integer was not. -/
theorem assemble_query_params_nonstring_value :
    allValuesStr (assemble_query_params true [("API_KEY", "Y")] (.point 1 2)
      none none false (.str "tmy") (some ["tmy"]) true false
      none none none none none none
      [("leap_day", .bool false), ("interval", .int 60)]) = false ∧
    assemble_query_params true [("API_KEY", "Y")] (.point 1 2)
      none none false (.str "tmy") (some ["tmy"]) true false
      none none none none none none
      [("leap_day", .bool false), ("interval", .int 60)]
      = .ok [("wkt", .str "POINT (1 2)"), ("api_key", .str "Y"),
             ("names", .str "tmy"), ("leap_day", .str "false"),
             ("interval", .int 60)] := by
  exact ⟨rfl, rfl⟩

/-- C7 amended. Every boolean value in the assembled query parameters is
converted by `process_bool` to the wire string "true"/"false" and no boolean
remains in the produced mapping; values of other non-string types (the
integer `interval` kwarg) pass through unchanged, so the mapping need not be
all strings. -/
theorem assemble_query_params_no_bool_values
    (config_file_exists : Bool) (config_file_vals : List (String × String))
    (location : PyLoc) (attributes : Option NamesInput)
    (allowed_attributes : Option (List String)) (one_allowed_attributes : Bool)
    (names : NamesInput) (allowed_names : Option (List String))
    (one_allowed_names : Bool) (utc : Bool)
    (api_key full_name affiliation email reason : Option String)
    (mailing_list : Option Bool) (kwargs : List (String × PyVal))
    (l : List (String × PyVal))
    (h : assemble_query_params config_file_exists config_file_vals location
      attributes allowed_attributes one_allowed_attributes names allowed_names
      one_allowed_names utc api_key full_name affiliation email reason
      mailing_list kwargs = .ok l) :
    (∀ b, process_bool (.bool b) = .str (if b then "true" else "false")) ∧
    ∀ kv ∈ l, kv.2.isBool = false := by
  refine ⟨fun b => rfl, ?_⟩
  intro kv hkv
  unfold assemble_query_params at h
  rcases hr : assemble_query_params_raw config_file_exists config_file_vals
      location attributes allowed_attributes one_allowed_attributes names
      allowed_names one_allowed_names utc api_key full_name affiliation email
      reason mailing_list kwargs with e | d
  · rw [hr] at h
    exact absurd h (by simp [Except.map])
  · rw [hr] at h
    have hl : l = d.map (fun kv => (kv.1, process_bool kv.2)) := by
      simpa [Except.map] using h.symm
    rw [hl, List.mem_map] at hkv
    obtain ⟨kv0, -, rfl⟩ := hkv
    cases hv : kv0.2 <;> simp [process_bool, PyVal.isBool]

/-- Witness for C7 amended at a concrete call: the `wkt` entry of the
produced mapping is not a boolean. -/
theorem assemble_query_params_no_bool_instance :
    ("wkt", PyVal.str "POINT (3 4)") ∈
      [("wkt", PyVal.str "POINT (3 4)"), ("api_key", PyVal.str "Z"),
       ("names", PyVal.str "2019")] ∧
    PyVal.isBool (PyVal.str "POINT (3 4)") = false :=
  ⟨by decide,
    (assemble_query_params_no_bool_values true [("API_KEY", "Z")] (.point 3 4)
      none none false (.str "2019") (some ["2019"]) false false
      none none none none none none [] _ rfl).2
      ("wkt", PyVal.str "POINT (3 4)") (by decide)⟩

/-- C8. On any non-2xx status (the source tests `== 200`, so any non-2xx
code takes the error branch), `_process_response` never raises: it returns
the parsed JSON structure when the body parses, and the raw body text
otherwise. -/
theorem process_response_non_2xx_returns_body {Table : Type}
    (resp : HttpResponse) (base_url : String) (timeout : Nat)
    (fetch : Nat → Option Table) (failDelay : Nat → Nat)
    (create_df : String → Table) (output_dir : Option Unit) (fuel : Nat)
    (h : ¬(200 ≤ resp.status_code ∧ resp.status_code < 300)) :
    process_response resp base_url timeout fetch failDelay create_df
        output_dir fuel
      = some (.ok (match resp.jsonParse with
          | some j => .errJson j
          | none => .errText resp.text)) := by
  have h200 : resp.status_code ≠ 200 := fun e => h ⟨by omega, by omega⟩
  unfold process_response
  rw [if_neg h200]
  cases resp.jsonParse <;> rfl

/-- Witness for C8: a 404 with a non-JSON body comes back as the raw text. -/
theorem process_response_non_2xx_instance :
    @process_response Nat ⟨404, "API key invalid", none⟩
      "https://host/api.json" 60 (fun _ => none) (fun _ => 0) (fun _ => 0)
      none 5
      = some (.ok (.errText "API key invalid")) :=
  process_response_non_2xx_returns_body
    ⟨404, "API key invalid", none⟩ "https://host/api.json" 60
    (fun _ => none) (fun _ => 0) (fun _ => 0) none 5 (by decide)

theorem pollLoop_all_fail {Table : Type} (fetch : Nat → Option Table)
    (failDelay : Nat → Nat) (timeout : Nat)
    (hfetch : ∀ n, fetch n = none) :
    ∀ fuel attempt elapsed current, timeout - elapsed < fuel →
      pollLoop fetch failDelay timeout attempt elapsed current fuel
        = some current := by
  intro fuel
  induction fuel with
  | zero => intro attempt elapsed current h; omega
  | succ f ih =>
    intro attempt elapsed current h
    rw [pollLoop]
    by_cases he : elapsed < timeout
    · rw [if_pos he, hfetch attempt]
      exact ih _ _ _ (by omega)
    · rw [if_neg he]

/-- Shared shape lemma: on a 200 response at a json endpoint whose parsed
body carries a truthy `outputs.downloadUrl`, `_process_response` is exactly
the poll loop started at attempt 0, elapsed 0, on the parsed submission. -/
theorem process_response_poll_eq {Table : Type}
    (txt base_url : String) (timeout : Nat) (fetch : Nat → Option Table)
    (failDelay : Nat → Nat) (create_df : String → Table)
    (output_dir : Option Unit) (fuel : Nat) (j outputs dl : JVal)
    (hjson : strContainsSub base_url "json" = true)
    (h1 : jSubscript j "outputs" = .ok outputs)
    (h2 : jGetDefaultFalse outputs "downloadUrl" = .ok dl)
    (h3 : jTruthy dl = true) :
    process_response ⟨200, txt, some j⟩ base_url timeout fetch failDelay
        create_df output_dir fuel
      = match pollLoop fetch failDelay timeout 0 0 (.jsonData j) fuel with
        | none => none
        | some rd => some (finishResponse rd output_dir) := by
  unfold process_response
  simp only [hjson, h1, h2, h3, if_true]

/-- C3. When every fetch of the download URL fails, the poll loop stops once
the measured elapsed time reaches the timeout (each failing attempt advances
it by at least the 5-second sleep, so fuel beyond the timeout suffices) and
`_process_response` returns the original submission payload unchanged,
raising nothing. -/
theorem process_response_poll_timeout_returns_submission {Table : Type}
    (txt base_url : String) (timeout : Nat) (fetch : Nat → Option Table)
    (failDelay : Nat → Nat) (create_df : String → Table)
    (j outputs dl : JVal) (fuel : Nat)
    (hjson : strContainsSub base_url "json" = true)
    (h1 : jSubscript j "outputs" = .ok outputs)
    (h2 : jGetDefaultFalse outputs "downloadUrl" = .ok dl)
    (h3 : jTruthy dl = true)
    (hfetch : ∀ n, fetch n = none)
    (hfuel : timeout < fuel) :
    process_response ⟨200, txt, some j⟩ base_url timeout fetch failDelay
        create_df none fuel
      = some (.ok (.data (.jsonData j))) := by
  rw [process_response_poll_eq txt base_url timeout fetch failDelay create_df
      none fuel j outputs dl hjson h1 h2 h3,
    pollLoop_all_fail fetch failDelay timeout hfetch fuel 0 0 _ (by omega)]
  rfl

/-- Witness for C3: timeout 7, fuel 8, every fetch failing — the original
submission JSON comes back unchanged. -/
theorem process_response_poll_timeout_instance :
    @process_response Nat
      ⟨200, "",
        some (JVal.obj [("outputs",
          JVal.obj [("downloadUrl", JVal.jstr "https://host/f.zip")])])⟩
      "https://host/api.json" 7 (fun _ => none) (fun _ => 0) (fun _ => 0)
      none 8
      = some (.ok (.data (.jsonData (JVal.obj [("outputs",
          JVal.obj [("downloadUrl", JVal.jstr "https://host/f.zip")])])))) :=
  process_response_poll_timeout_returns_submission
    "" "https://host/api.json" 7 (fun _ => none) (fun _ => 0) (fun _ => 0)
    (JVal.obj [("outputs",
      JVal.obj [("downloadUrl", JVal.jstr "https://host/f.zip")])])
    (JVal.obj [("downloadUrl", JVal.jstr "https://host/f.zip")])
    (JVal.jstr "https://host/f.zip") 8
    rfl rfl rfl rfl (fun _ => rfl) (by omega)

theorem pollLoop_ready_never_exits :
    ∀ fuel attempt current,
      @pollLoop Nat (fun _ => some 1) (fun _ => 0) 7 attempt 0
        current fuel = none := by
  intro fuel
  induction fuel with
  | zero => intro attempt current; rfl
  | succ f ih =>
    intro attempt current
    rw [pollLoop, if_pos (by omega)]
    exact ih _ _

/-- C4. When the archive at the download URL is fetchable (every attempt
succeeds), the loop in `_process_response` never terminates: there is no
break on success and `elapsed_time` is only re-measured in the except
branch, so the code re-downloads forever instead of returning the assembled
table — for every amount of fuel the unfolding is still running. -/
theorem process_response_ready_download_never_returns :
    ∀ fuel : Nat,
      @process_response Nat
        ⟨200, "",
          some (JVal.obj [("outputs",
            JVal.obj [("downloadUrl", JVal.jstr "https://host/f.zip")])])⟩
        "https://host/api.json" 7 (fun _ => some 1) (fun _ => 0) (fun _ => 0)
        none fuel = none := by
  intro fuel
  rw [process_response_poll_eq "" "https://host/api.json" 7 (fun _ => some 1)
      (fun _ => 0) (fun _ => 0) none fuel
      (JVal.obj [("outputs",
        JVal.obj [("downloadUrl", JVal.jstr "https://host/f.zip")])])
      (JVal.obj [("downloadUrl", JVal.jstr "https://host/f.zip")])
      (JVal.jstr "https://host/f.zip") rfl rfl rfl rfl,
    pollLoop_ready_never_exits fuel 0 _]
